import Mathlib

/-!
Shallow embedding of the `flakehub-deploy` repository: a deployment
orchestrator (`flakehub_deploy_runner.py`) and a GitHub webhook receiver
(`flakehub_webhook_handler.py`).  External effects (the `fh` resolver, the
`fh apply` tool, `nixos-rebuild --rollback`, HMAC-SHA256, JSON parsing,
HTTP delivery, the filesystem) are modelled as explicit inputs; the control
flow of the Python functions is translated line by line.
-/

/-- Python truthiness of an optional string: `None` and `""` are falsy. -/
def pyTruthy (s : Option String) : Bool :=
  match s with
  | none => false
  | some v => !(v == "")

/-- Characters removed by Python's `str.strip()` with no argument. -/
def pySpace (c : Char) : Bool :=
  c == ' ' || c == '\t' || c == '\n' || c == '\r' || c == Char.ofNat 11 || c == Char.ofNat 12

/-- Python `str.strip()`: drop leading and trailing whitespace. -/
def pyStrip (s : String) : String :=
  String.mk (((s.data.dropWhile pySpace).reverse.dropWhile pySpace).reverse)

/-- Helper for Python's substring test: is `needle` a contiguous sublist of the second list? -/
def subListOf (needle : List Char) : List Char → Bool
  | [] => needle == []
  | c :: rest => needle.isPrefixOf (c :: rest) || subListOf needle rest

/-- Python `needle in hay` on strings: substring containment. -/
def pyIn (needle hay : String) : Bool :=
  subListOf needle.data hay.data

/-- Python f-string rendering of an optional string (`None` prints as "None"). -/
def pyShowOpt (s : Option String) : String :=
  match s with
  | none => "None"
  | some v => v

/-- Python `str.startswith` over code points (kernel-reducible form of
`String.startsWith`). -/
def strStartsWith (s pre : String) : Bool :=
  pre.data.isPrefixOf s.data

/-- Python slicing `s[n:]` over code points (kernel-reducible form of
`String.drop`). -/
def strDrop (s : String) (n : Nat) : String :=
  String.mk (s.data.drop n)

/-- Python `str.lower` over code points. -/
def pyLower (s : String) : String :=
  String.mk (s.data.map Char.toLower)

/-! ## Deployment runner (`flakehub_deploy_runner.py`) -/

/-- Discord embed colors, from `class Color(Enum)`. -/
inductive Color where
  | BLUE
  | GREEN
  | YELLOW
  | RED
deriving DecidableEq, Repr

/-- One Discord embed payload: title, description and color, as built in
`send_discord_notification`. -/
structure Notification where
  title : String
  message : String
  color : Color
deriving DecidableEq, Repr

/-- Outcome of one `send_discord_notification` call: skipped (no URL
configured), delivered, or the HTTP post failed (exception swallowed). -/
inductive NotifyOutcome where
  | skipped
  | sent
  | deliveryFailed
deriving DecidableEq, Repr

/-- `send_discord_notification`: skips when no webhook URL is configured
(Python truthiness), otherwise performs one HTTP post whose success is the
`deliveryOk` input; an `httpx.HTTPError` is caught and logged, never raised. -/
def send_discord_notification (webhook_url : Option String) (_n : Notification)
    (deliveryOk : Bool) : NotifyOutcome :=
  if pyTruthy webhook_url = false then
    NotifyOutcome.skipped
  else if deliveryOk then
    NotifyOutcome.sent
  else
    NotifyOutcome.deliveryFailed

/-- `DeployConfig` dataclass. `state_dir` is kept as a plain string; the
state file itself is modelled in `DeployEnv`. -/
structure DeployConfig where
  flake_ref : String
  configuration : String
  operation : String
  state_dir : String
  discord_webhook_url : Option String
  rollback_enabled : Bool

/-- The external world one `deploy` run observes: the local hostname, the
resolver's outcome (`fh resolve` raw stdout on success, diagnostic text on
failure), the prior contents of the state file (`none` if absent), the
return code of `fh apply`, and whether `nixos-rebuild --rollback` succeeds. -/
structure DeployEnv where
  hostname : String
  resolveResult : Except String String
  stateFile : Option String
  applyReturncode : Int
  rollbackOk : Bool

/-- Everything observable about one `deploy` run: the returned exit code,
the final state-file contents, how many times `fh apply` and the rollback
tool ran, the notifications attempted (in order), and the delivery outcome
of each attempt. -/
structure DeployResult where
  exitCode : Nat
  stateFile : Option String
  applyCalls : Nat
  rollbackCalls : Nat
  notifications : List Notification
  notifyLog : List NotifyOutcome
deriving Repr

/-- Assemble a `DeployResult`, delivering each attempted notification
exactly once through `send_discord_notification`. -/
def mkDeployResult (url : Option String) (sink : Notification → Bool)
    (exit : Nat) (st : Option String) (ac rc : Nat)
    (ns : List Notification) : DeployResult :=
  { exitCode := exit, stateFile := st, applyCalls := ac, rollbackCalls := rc,
    notifications := ns,
    notifyLog := ns.map (fun n => send_discord_notification url n (sink n)) }

/-- The idempotency check of `deploy` (lines 175-184): skip when the
stripped state-file contents equal the resolved version or equal
`"FAILED:" ++ resolved`. -/
def shouldSkip (stateFile : Option String) (resolved : String) : Bool :=
  match stateFile with
  | none => false
  | some content =>
    let current := pyStrip content
    current == resolved || current == "FAILED:" ++ resolved

/-- `deploy(config)`: resolve, idempotency check, apply, rollback, persist.
`sink` gives the delivery outcome of each attempted notification. -/
def deploy (sink : Notification → Bool) (env : DeployEnv)
    (config : DeployConfig) : DeployResult :=
  match env.resolveResult with
  | Except.error errMsg =>
    mkDeployResult config.discord_webhook_url sink 1 env.stateFile 0 0
      [⟨"Deployment Failed",
        "Failed to resolve FlakeHub reference on " ++ env.hostname ++ ": " ++ errMsg,
        Color.RED⟩]
  | Except.ok stdout =>
    let resolved := pyStrip stdout
    if shouldSkip env.stateFile resolved then
      mkDeployResult config.discord_webhook_url sink 0 env.stateFile 0 0 []
    else
      let startN : Notification :=
        ⟨"Deployment Starting",
         "Deploying " ++ resolved ++ " to " ++ env.hostname ++ " via " ++ config.operation,
         Color.YELLOW⟩
      if env.applyReturncode = 0 then
        mkDeployResult config.discord_webhook_url sink 0 (some resolved) 1 0
          [startN,
           ⟨"Deployment Succeeded",
            "Successfully deployed " ++ resolved ++ " to " ++ env.hostname,
            Color.GREEN⟩]
      else
        let failN : Notification :=
          ⟨"Deployment Failed",
           "Failed to deploy " ++ resolved ++ " to " ++ env.hostname,
           Color.RED⟩
        if config.rollback_enabled then
          if env.rollbackOk then
            mkDeployResult config.discord_webhook_url sink 1
              (some ("FAILED:" ++ resolved)) 1 1
              [startN, failN,
               ⟨"Rollback Succeeded",
                "Rolled back " ++ env.hostname ++ " after failed deployment",
                Color.YELLOW⟩]
          else
            mkDeployResult config.discord_webhook_url sink 1
              (some ("FAILED:" ++ resolved)) 1 1
              [startN, failN,
               ⟨"Rollback Failed",
                "CRITICAL: Failed to rollback " ++ env.hostname ++ " - manual intervention required",
                Color.RED⟩]
        else
          mkDeployResult config.discord_webhook_url sink 1
            (some ("FAILED:" ++ resolved)) 1 0
            [startN, failN]

/-- The environment variables and filesystem `DeployConfig.from_env` and
`main` read. -/
structure RunnerEnv where
  FLAKE_REF : Option String
  CONFIGURATION : Option String
  OPERATION : Option String
  STATE_DIR : Option String
  DISCORD_WEBHOOK_FILE : Option String
  ROLLBACK_ENABLED : Option String
  gethostname : String
  readFile : String → Option String

/-- `DeployConfig.from_env`: `os.environ["FLAKE_REF"]` raises `KeyError`
when absent (`none` result); everything else has a default. A configured
Discord webhook file that cannot be read leaves the URL unset. -/
def DeployConfig.from_env (e : RunnerEnv) : Option DeployConfig :=
  match e.FLAKE_REF with
  | none => none
  | some fr =>
    some
      { flake_ref := fr,
        configuration := e.CONFIGURATION.getD e.gethostname,
        operation := e.OPERATION.getD "switch",
        state_dir := e.STATE_DIR.getD "/var/lib/flakehub-deploy",
        discord_webhook_url :=
          if pyTruthy e.DISCORD_WEBHOOK_FILE then
            (e.readFile (e.DISCORD_WEBHOOK_FILE.getD "")).map pyStrip
          else
            none,
        rollback_enabled := pyLower (e.ROLLBACK_ENABLED.getD "true") == "true" }

/-- CLI arguments of the runner's `main` (`argparse`). -/
structure RunnerArgs where
  flake_ref : Option String
  configuration : Option String
  operation : Option String

/-- The env-override block of `main`: each truthy CLI argument overwrites
the corresponding environment variable. -/
def applyArgs (a : RunnerArgs) (e : RunnerEnv) : RunnerEnv :=
  let e1 := if pyTruthy a.flake_ref then { e with FLAKE_REF := a.flake_ref } else e
  let e2 := if pyTruthy a.configuration then { e1 with CONFIGURATION := a.configuration } else e1
  if pyTruthy a.operation then { e2 with OPERATION := a.operation } else e2

/-- The runner's `main`: load config (exit 1 on missing `FLAKE_REF`, before
any deployment), else run `deploy` once and exit with its code. Returns
(process exit code, number of `deploy` runs). -/
def runner_main (sink : Notification → Bool) (a : RunnerArgs) (e : RunnerEnv)
    (denv : DeployEnv) : Nat × Nat :=
  match DeployConfig.from_env (applyArgs a e) with
  | none => (1, 0)
  | some cfg => ((deploy sink denv cfg).exitCode, 1)

/-! ## Webhook receiver (`flakehub_webhook_handler.py`) -/

/-- `WorkflowJob` pydantic model. -/
structure WorkflowJob where
  name : String
  conclusion : Option String
  workflow_name : Option String
deriving DecidableEq, Repr

/-- `WebhookPayload` pydantic model. -/
structure WebhookPayload where
  action : String
  workflow_job : Option WorkflowJob
deriving DecidableEq, Repr

/-- One inbound HTTP request to `POST /hooks/deploy`: the raw body bytes and
the two headers the handler reads (absent headers are `none`). -/
structure WebhookRequest where
  body : List Nat
  xHubSignature256 : Option String
  xGithubEvent : Option String

/-- The handler's terminal outcome: an `HTTPException` with a status code
and detail, a 200 "ignored" JSON body with a reason, or a 200 "triggered"
JSON body carrying the hostname. -/
inductive WebhookResponse where
  | httpError (status : Nat) (detail : String)
  | ignored (reason : String)
  | triggered (hostname : String)
deriving DecidableEq, Repr

/-- `verify_signature`: require the fixed `"sha256="` lead-in, then compare
(`hmac.compare_digest`, semantically equality) the rest of the header
against the HMAC-SHA256 hex digest of the raw body under the secret.
`hmacHex secret payload` models `hmac.new(secret, payload, sha256).hexdigest()`. -/
def verify_signature (hmacHex : String → List Nat → String) (payload : List Nat)
    (signature : String) (secret : String) : Bool :=
  if strStartsWith signature "sha256=" then
    hmacHex secret payload == strDrop signature 7
  else
    false

/-- The `webhook` endpoint handler. `parse` models
`WebhookPayload.model_validate_json` (`none` = parse failure), `triggerOk`
models whether `trigger_deployment`'s `systemctl start` succeeds. Returns
the response together with the number of trigger calls made. -/
def webhook (hmacHex : String → List Nat → String)
    (parse : List Nat → Option WebhookPayload)
    (hostname : String) (secret : String) (triggerOk : Bool)
    (req : WebhookRequest) : WebhookResponse × Nat :=
  if pyTruthy req.xHubSignature256 = false then
    (WebhookResponse.httpError 401 "Missing signature", 0)
  else if verify_signature hmacHex req.body (req.xHubSignature256.getD "") secret = false then
    (WebhookResponse.httpError 401 "Invalid signature", 0)
  else if req.xGithubEvent ≠ some "workflow_job" then
    (WebhookResponse.ignored ("event type " ++ pyShowOpt req.xGithubEvent), 0)
  else
    match parse req.body with
    | none => (WebhookResponse.httpError 400 "Invalid payload", 0)
    | some payload =>
      if payload.action ≠ "completed" then
        (WebhookResponse.ignored ("action " ++ payload.action), 0)
      else
        match payload.workflow_job with
        | none => (WebhookResponse.ignored "no workflow_job", 0)
        | some job =>
          if pyIn hostname job.name = false then
            (WebhookResponse.ignored "hostname mismatch", 0)
          else if job.conclusion ≠ some "success" then
            (WebhookResponse.ignored "not successful", 0)
          else if triggerOk then
            (WebhookResponse.triggered hostname, 1)
          else
            (WebhookResponse.httpError 500 "Failed to trigger deployment", 1)

/-- The environment the receiver reads: secret sources, hostname override,
bind address, the uname nodename, and the filesystem. -/
structure ReceiverEnv where
  WEBHOOK_SECRET_FILE : Option String
  WEBHOOK_SECRET : Option String
  HOSTNAME : Option String
  HOST : Option String
  PORT : Option String
  nodename : String
  readFile : String → Option String

/-- Outcome of `get_secret`: a loaded secret, the `sys.exit(1)` taken when
no secret is configured, or an uncaught read error on the secret file. -/
inductive SecretOutcome where
  | loaded (secret : String)
  | exitConfigError
  | readErr
deriving DecidableEq, Repr

/-- `get_secret`: prefer a truthy `WEBHOOK_SECRET_FILE` (stripped file
contents; an unreadable file raises), then a truthy `WEBHOOK_SECRET`, else
log an error and `sys.exit(1)`. Called inside the request handler, not at
startup. -/
def get_secret (e : ReceiverEnv) : SecretOutcome :=
  if pyTruthy e.WEBHOOK_SECRET_FILE then
    match e.readFile (e.WEBHOOK_SECRET_FILE.getD "") with
    | some content => SecretOutcome.loaded (pyStrip content)
    | none => SecretOutcome.readErr
  else if pyTruthy e.WEBHOOK_SECRET then
    SecretOutcome.loaded (e.WEBHOOK_SECRET.getD "")
  else
    SecretOutcome.exitConfigError

/-- `get_hostname`: `os.environ.get("HOSTNAME", os.uname().nodename)`. -/
def get_hostname (e : ReceiverEnv) : String :=
  e.HOSTNAME.getD e.nodename

/-- One full request to the endpoint including the request-time
`get_secret()` call: `none` means the process exited or crashed while
handling the request (no response produced). -/
def webhook_endpoint (hmacHex : String → List Nat → String)
    (parse : List Nat → Option WebhookPayload)
    (e : ReceiverEnv) (triggerOk : Bool)
    (req : WebhookRequest) : Option (WebhookResponse × Nat) :=
  match get_secret e with
  | SecretOutcome.loaded s => some (webhook hmacHex parse (get_hostname e) s triggerOk req)
  | _ => none

/-- What the receiver's `main` does at startup: exit, or reach the
`uvicorn.run` listening state. -/
inductive StartupOutcome where
  | exited (code : Nat)
  | listening (host : String) (port : String)
deriving DecidableEq, Repr

/-- The receiver's `main`: read `HOST`/`PORT` with defaults and start
listening. No configuration (in particular no secret) is checked here. -/
def webhook_main (e : ReceiverEnv) : StartupOutcome :=
  StartupOutcome.listening (e.HOST.getD "127.0.0.1") (e.PORT.getD "9876")

/-! ## Helper lemmas -/

/-- A signature that verifies is in particular non-empty (it starts with
"sha256="). -/
theorem verify_ok_ne_empty (hmacHex : String → List Nat → String)
    (payload : List Nat) (sig secret : String)
    (h : verify_signature hmacHex payload sig secret = true) :
    (sig == "") = false := by
  rcases eq_or_ne sig "" with rfl | hn
  · rw [verify_signature, if_neg (by decide)] at h
    exact absurd h (by decide)
  · simp [hn]

/-! ## Claim theorems -/

/-- C2: if the state file holds the resolved version `V` (Applied) or
`"FAILED:" ++ V` (Failed) and the resolver again returns `V`, `deploy`
performs zero apply calls and zero rollback calls, leaves the state file
unchanged, and exits 0. -/
theorem deploy_skip_applied_or_failed (sink : Notification → Bool)
    (env : DeployEnv) (config : DeployConfig) (s c V : String)
    (hres : env.resolveResult = Except.ok s)
    (hV : pyStrip s = V)
    (hfile : env.stateFile = some c)
    (hc : pyStrip c = V ∨ pyStrip c = "FAILED:" ++ V) :
    (deploy sink env config).applyCalls = 0 ∧
    (deploy sink env config).rollbackCalls = 0 ∧
    (deploy sink env config).stateFile = env.stateFile ∧
    (deploy sink env config).exitCode = 0 := by
  have hskip : shouldSkip env.stateFile (pyStrip s) = true := by
    rw [hfile]
    simp only [shouldSkip, hV]
    rcases hc with h | h <;> simp [h]
  simp [deploy, hres, hskip, mkDeployResult]

/-- C2 witness: a concrete skipped run. -/
theorem deploy_skip_applied_or_failed_witness :
    (deploy (fun _ => true)
      ⟨"h", Except.ok " v42\n", some "v42", 0, true⟩
      ⟨"r", "c", "switch", "/s", none, true⟩).applyCalls = 0 ∧
    (deploy (fun _ => true)
      ⟨"h", Except.ok " v42\n", some "v42", 0, true⟩
      ⟨"r", "c", "switch", "/s", none, true⟩).exitCode = 0 := by
  have h := deploy_skip_applied_or_failed (fun _ => true)
    ⟨"h", Except.ok " v42\n", some "v42", 0, true⟩
    ⟨"r", "c", "switch", "/s", none, true⟩
    " v42\n" "v42" "v42" rfl (by decide) rfl (Or.inl (by decide))
  exact ⟨h.1, h.2.2.2⟩

/-- C3: when the apply tool reports a nonzero result for resolved version
`V` (and the run was not skipped), `deploy` writes exactly `"FAILED:" ++ V`
as the state-file contents, exits 1 regardless of the rollback outcome, and
invokes rollback exactly once when enabled and zero times when disabled. -/
theorem deploy_apply_failure_state (sink : Notification → Bool)
    (env : DeployEnv) (config : DeployConfig) (s V : String)
    (hres : env.resolveResult = Except.ok s)
    (hV : pyStrip s = V)
    (hskip : shouldSkip env.stateFile V = false)
    (happly : env.applyReturncode ≠ 0) :
    (deploy sink env config).stateFile = some ("FAILED:" ++ V) ∧
    (deploy sink env config).exitCode = 1 ∧
    (deploy sink env config).applyCalls = 1 ∧
    (deploy sink env config).rollbackCalls =
      (if config.rollback_enabled then 1 else 0) := by
  subst hV
  by_cases hrb : config.rollback_enabled <;> by_cases hro : env.rollbackOk <;>
    simp [deploy, hres, hskip, happly, hrb, hro, mkDeployResult]

/-- C3 witness: a concrete failed apply with rollback enabled. -/
theorem deploy_apply_failure_state_witness :
    (deploy (fun _ => true)
      ⟨"h", Except.ok "v43", none, 1, true⟩
      ⟨"r", "c", "switch", "/s", none, true⟩).stateFile = some "FAILED:v43" ∧
    (deploy (fun _ => true)
      ⟨"h", Except.ok "v43", none, 1, true⟩
      ⟨"r", "c", "switch", "/s", none, true⟩).exitCode = 1 ∧
    (deploy (fun _ => true)
      ⟨"h", Except.ok "v43", none, 1, true⟩
      ⟨"r", "c", "switch", "/s", none, true⟩).rollbackCalls = 1 := by
  have h := deploy_apply_failure_state (fun _ => true)
    ⟨"h", Except.ok "v43", none, 1, true⟩
    ⟨"r", "c", "switch", "/s", none, true⟩
    "v43" "v43" rfl (by decide) (by decide) (by decide)
  exact ⟨h.1, h.2.1, h.2.2.2⟩

/-- C4: when the resolver fails, `deploy` performs no apply and no rollback,
leaves the state file exactly as found (present or absent), exits 1, and
attempts exactly one failure notification whose message carries the
resolver's diagnostic text. -/
theorem deploy_resolve_failure (sink : Notification → Bool)
    (env : DeployEnv) (config : DeployConfig) (msg : String)
    (hres : env.resolveResult = Except.error msg) :
    (deploy sink env config).applyCalls = 0 ∧
    (deploy sink env config).rollbackCalls = 0 ∧
    (deploy sink env config).stateFile = env.stateFile ∧
    (deploy sink env config).exitCode = 1 ∧
    (deploy sink env config).notifications =
      [⟨"Deployment Failed",
        "Failed to resolve FlakeHub reference on " ++ env.hostname ++ ": " ++ msg,
        Color.RED⟩] := by
  simp [deploy, hres, mkDeployResult]

/-- C4 witness: a concrete resolve failure with a pre-existing state file. -/
theorem deploy_resolve_failure_witness :
    (deploy (fun _ => true)
      ⟨"h", Except.error "boom", some "old", 0, true⟩
      ⟨"r", "c", "switch", "/s", none, true⟩).applyCalls = 0 ∧
    (deploy (fun _ => true)
      ⟨"h", Except.error "boom", some "old", 0, true⟩
      ⟨"r", "c", "switch", "/s", none, true⟩).stateFile = some "old" ∧
    (deploy (fun _ => true)
      ⟨"h", Except.error "boom", some "old", 0, true⟩
      ⟨"r", "c", "switch", "/s", none, true⟩).exitCode = 1 := by
  have h := deploy_resolve_failure (fun _ => true)
    ⟨"h", Except.error "boom", some "old", 0, true⟩
    ⟨"r", "c", "switch", "/s", none, true⟩ "boom" rfl
  exact ⟨h.1, h.2.2.1, h.2.2.2.1⟩

/-- C7: two `deploy` runs that differ only in notification-delivery
outcomes have the same exit code, final state file, apply and rollback
call counts, and the same attempted notification sequence; each attempted
notification is delivered exactly once (never retried). -/
theorem deploy_sink_independent (sink1 sink2 : Notification → Bool)
    (env : DeployEnv) (config : DeployConfig) :
    (deploy sink1 env config).exitCode = (deploy sink2 env config).exitCode ∧
    (deploy sink1 env config).stateFile = (deploy sink2 env config).stateFile ∧
    (deploy sink1 env config).applyCalls = (deploy sink2 env config).applyCalls ∧
    (deploy sink1 env config).rollbackCalls = (deploy sink2 env config).rollbackCalls ∧
    (deploy sink1 env config).notifications = (deploy sink2 env config).notifications ∧
    (deploy sink1 env config).notifyLog.length = (deploy sink1 env config).notifications.length ∧
    (deploy sink2 env config).notifyLog.length = (deploy sink2 env config).notifications.length := by
  obtain ⟨hostname, res, st, rc, rb⟩ := env
  cases res
  · simp [deploy, mkDeployResult]
  · simp only [deploy, mkDeployResult]
    split_ifs <;> simp

/-- C10: the on-disk encoding is not injective. A successful apply of the
version string "FAILED:w" writes the same state-file contents as a failed
apply of "w"; a later run whose resolver returns "w" then skips as
previously-failed and exits 0 with zero apply calls, although "w" never
failed. -/
theorem state_encoding_collision :
    (deploy (fun _ => true)
      ⟨"h", Except.ok "FAILED:w", none, 0, true⟩
      ⟨"r", "c", "switch", "/s", none, false⟩).stateFile = some "FAILED:w" ∧
    (deploy (fun _ => true)
      ⟨"h", Except.ok "FAILED:w", none, 0, true⟩
      ⟨"r", "c", "switch", "/s", none, false⟩).exitCode = 0 ∧
    (deploy (fun _ => true)
      ⟨"h", Except.ok "w", none, 1, true⟩
      ⟨"r", "c", "switch", "/s", none, false⟩).stateFile = some "FAILED:w" ∧
    (deploy (fun _ => true)
      ⟨"h", Except.ok "w", none, 1, true⟩
      ⟨"r", "c", "switch", "/s", none, false⟩).exitCode = 1 ∧
    (deploy (fun _ => true)
      ⟨"h", Except.ok "w", some "FAILED:w", 0, true⟩
      ⟨"r", "c", "switch", "/s", none, false⟩).applyCalls = 0 ∧
    (deploy (fun _ => true)
      ⟨"h", Except.ok "w", some "FAILED:w", 0, true⟩
      ⟨"r", "c", "switch", "/s", none, false⟩).exitCode = 0 := by
  decide

/-- C1: a request whose signature header is missing, lacks the "sha256="
lead-in, or whose remainder differs from the HMAC-SHA256 hex digest of the
raw body under the configured secret, is rejected with a 401 outcome, with
zero trigger calls, and the result is independent of the payload parser
(the check runs before any parsing or filtering). -/
theorem webhook_rejects_bad_signature
    (hmacHex : String → List Nat → String)
    (parse : List Nat → Option WebhookPayload)
    (hostname secret : String) (triggerOk : Bool) (req : WebhookRequest)
    (hbad : ∀ s, req.xHubSignature256 = some s →
      strStartsWith s "sha256=" = false ∨ hmacHex secret req.body ≠ strDrop s 7) :
    (webhook hmacHex parse hostname secret triggerOk req).2 = 0 ∧
    ((webhook hmacHex parse hostname secret triggerOk req).1 =
        WebhookResponse.httpError 401 "Missing signature" ∨
      (webhook hmacHex parse hostname secret triggerOk req).1 =
        WebhookResponse.httpError 401 "Invalid signature") ∧
    (∀ parse2, webhook hmacHex parse2 hostname secret triggerOk req =
        webhook hmacHex parse hostname secret triggerOk req) := by
  have hver : ∀ s, req.xHubSignature256 = some s →
      verify_signature hmacHex req.body s secret = false := by
    intro s hs
    rcases hbad s hs with h | h
    · simp [verify_signature, h]
    · by_cases hp : strStartsWith s "sha256="
      · rw [verify_signature, if_pos hp]
        exact beq_eq_false_iff_ne.mpr h
      · simp [verify_signature, hp]
  cases hsig : req.xHubSignature256 with
  | none =>
    refine ⟨?_, ?_, ?_⟩ <;> simp [webhook, hsig, pyTruthy]
  | some s =>
    by_cases hs : s = ""
    · subst hs
      refine ⟨?_, ?_, ?_⟩ <;> simp [webhook, hsig, pyTruthy]
    · have hv := hver s hsig
      refine ⟨?_, ?_, ?_⟩ <;> simp [webhook, hsig, pyTruthy, hs, hv]

/-- C1 witness: a concrete request whose signature remainder differs from
the digest is rejected with 401 and no trigger call. -/
theorem webhook_rejects_bad_signature_witness :
    (webhook (fun _ _ => "aa") (fun _ => none) "host" "sec" true
      ⟨[1, 2], some "sha256=bb", some "workflow_job"⟩).2 = 0 ∧
    ((webhook (fun _ _ => "aa") (fun _ => none) "host" "sec" true
        ⟨[1, 2], some "sha256=bb", some "workflow_job"⟩).1 =
        WebhookResponse.httpError 401 "Missing signature" ∨
      (webhook (fun _ _ => "aa") (fun _ => none) "host" "sec" true
        ⟨[1, 2], some "sha256=bb", some "workflow_job"⟩).1 =
        WebhookResponse.httpError 401 "Invalid signature") := by
  have h := webhook_rejects_bad_signature (fun _ _ => "aa") (fun _ => none)
    "host" "sec" true ⟨[1, 2], some "sha256=bb", some "workflow_job"⟩
    (by
      intro s hs
      injection hs with h
      subst h
      right
      decide)
  exact ⟨h.1, h.2.1⟩

/-- C5: on an authenticated request the filters run in the fixed order
event-type, action, job presence, hostname substring, conclusion; the first
failing check yields an "ignored" response with a reason and zero trigger
calls, while a parse failure of a matching-event authenticated body yields
a 400 malformed-payload error, not an "ignored" response. -/
theorem webhook_filter_order
    (hmacHex : String → List Nat → String)
    (parse : List Nat → Option WebhookPayload)
    (hostname secret : String) (triggerOk : Bool) (req : WebhookRequest)
    (sig : String) (p : WebhookPayload) (job : WorkflowJob)
    (hsig : req.xHubSignature256 = some sig)
    (hver : verify_signature hmacHex req.body sig secret = true) :
    (req.xGithubEvent ≠ some "workflow_job" →
      webhook hmacHex parse hostname secret triggerOk req =
        (WebhookResponse.ignored ("event type " ++ pyShowOpt req.xGithubEvent), 0)) ∧
    (req.xGithubEvent = some "workflow_job" → parse req.body = none →
      webhook hmacHex parse hostname secret triggerOk req =
        (WebhookResponse.httpError 400 "Invalid payload", 0)) ∧
    (req.xGithubEvent = some "workflow_job" → parse req.body = some p →
      p.action ≠ "completed" →
      webhook hmacHex parse hostname secret triggerOk req =
        (WebhookResponse.ignored ("action " ++ p.action), 0)) ∧
    (req.xGithubEvent = some "workflow_job" → parse req.body = some p →
      p.action = "completed" → p.workflow_job = none →
      webhook hmacHex parse hostname secret triggerOk req =
        (WebhookResponse.ignored "no workflow_job", 0)) ∧
    (req.xGithubEvent = some "workflow_job" → parse req.body = some p →
      p.action = "completed" → p.workflow_job = some job →
      pyIn hostname job.name = false →
      webhook hmacHex parse hostname secret triggerOk req =
        (WebhookResponse.ignored "hostname mismatch", 0)) ∧
    (req.xGithubEvent = some "workflow_job" → parse req.body = some p →
      p.action = "completed" → p.workflow_job = some job →
      pyIn hostname job.name = true → job.conclusion ≠ some "success" →
      webhook hmacHex parse hostname secret triggerOk req =
        (WebhookResponse.ignored "not successful", 0)) := by
  have hne := verify_ok_ne_empty hmacHex req.body sig secret hver
  refine ⟨?_, ?_, ?_, ?_, ?_, ?_⟩
  · intro hev
    simp [webhook, hsig, pyTruthy, hne, hver, hev]
  · intro hev hparse
    simp [webhook, hsig, pyTruthy, hne, hver, hev, hparse]
  · intro hev hparse hact
    simp [webhook, hsig, pyTruthy, hne, hver, hev, hparse, hact]
  · intro hev hparse hact hjob
    simp [webhook, hsig, pyTruthy, hne, hver, hev, hparse, hact, hjob]
  · intro hev hparse hact hjob hname
    simp [webhook, hsig, pyTruthy, hne, hver, hev, hparse, hact, hjob, hname]
  · intro hev hparse hact hjob hname hconc
    simp [webhook, hsig, pyTruthy, hne, hver, hev, hparse, hact, hjob, hname, hconc]

/-- C5 witness: a concrete authenticated request with a non-matching event
type is ignored with a reason, and a concrete authenticated matching-event
request with an unparsable body gets a 400. -/
theorem webhook_filter_order_witness :
    webhook (fun _ _ => "aa") (fun _ => none) "host" "sec" true
      ⟨[], some "sha256=aa", some "push"⟩ =
      (WebhookResponse.ignored "event type push", 0) ∧
    webhook (fun _ _ => "aa") (fun _ => none) "host" "sec" true
      ⟨[], some "sha256=aa", some "workflow_job"⟩ =
      (WebhookResponse.httpError 400 "Invalid payload", 0) := by
  constructor
  · exact (webhook_filter_order (fun _ _ => "aa") (fun _ => none) "host" "sec" true
      ⟨[], some "sha256=aa", some "push"⟩ "sha256=aa" ⟨"completed", none⟩
      ⟨"x", none, none⟩ rfl (by decide)).1 (by decide)
  · exact (webhook_filter_order (fun _ _ => "aa") (fun _ => none) "host" "sec" true
      ⟨[], some "sha256=aa", some "workflow_job"⟩ "sha256=aa" ⟨"completed", none⟩
      ⟨"x", none, none⟩ rfl (by decide)).2.1 rfl rfl

/-- C6: an authenticated request whose event type, action, job presence,
hostname substring and conclusion all match makes exactly one trigger call;
a successful trigger yields the "triggered" response and a failed trigger
yields a 500 server error. -/
theorem webhook_full_match_triggers
    (hmacHex : String → List Nat → String)
    (parse : List Nat → Option WebhookPayload)
    (hostname secret : String) (triggerOk : Bool) (req : WebhookRequest)
    (sig : String) (p : WebhookPayload) (job : WorkflowJob)
    (hsig : req.xHubSignature256 = some sig)
    (hver : verify_signature hmacHex req.body sig secret = true)
    (hev : req.xGithubEvent = some "workflow_job")
    (hparse : parse req.body = some p)
    (hact : p.action = "completed")
    (hjob : p.workflow_job = some job)
    (hname : pyIn hostname job.name = true)
    (hconc : job.conclusion = some "success") :
    (webhook hmacHex parse hostname secret triggerOk req).2 = 1 ∧
    (triggerOk = true →
      (webhook hmacHex parse hostname secret triggerOk req).1 =
        WebhookResponse.triggered hostname) ∧
    (triggerOk = false →
      (webhook hmacHex parse hostname secret triggerOk req).1 =
        WebhookResponse.httpError 500 "Failed to trigger deployment") := by
  have hne := verify_ok_ne_empty hmacHex req.body sig secret hver
  refine ⟨?_, ?_, ?_⟩
  · cases triggerOk <;>
      simp [webhook, hsig, pyTruthy, hne, hver, hev, hparse, hact, hjob, hname, hconc]
  · intro ht
    subst ht
    simp [webhook, hsig, pyTruthy, hne, hver, hev, hparse, hact, hjob, hname, hconc]
  · intro ht
    subst ht
    simp [webhook, hsig, pyTruthy, hne, hver, hev, hparse, hact, hjob, hname, hconc]

/-- C6 witness: a concrete fully matching request triggers exactly once and
reports "triggered". -/
theorem webhook_full_match_triggers_witness :
    (webhook (fun _ _ => "aa")
      (fun _ => some ⟨"completed", some ⟨"deploy-myhost", some "success", none⟩⟩)
      "myhost" "sec" true ⟨[], some "sha256=aa", some "workflow_job"⟩).2 = 1 ∧
    (webhook (fun _ _ => "aa")
      (fun _ => some ⟨"completed", some ⟨"deploy-myhost", some "success", none⟩⟩)
      "myhost" "sec" true ⟨[], some "sha256=aa", some "workflow_job"⟩).1 =
      WebhookResponse.triggered "myhost" := by
  have h := webhook_full_match_triggers (fun _ _ => "aa")
    (fun _ => some ⟨"completed", some ⟨"deploy-myhost", some "success", none⟩⟩)
    "myhost" "sec" true ⟨[], some "sha256=aa", some "workflow_job"⟩
    "sha256=aa" ⟨"completed", some ⟨"deploy-myhost", some "success", none⟩⟩
    ⟨"deploy-myhost", some "success", none⟩
    rfl (by decide) rfl rfl rfl rfl (by decide) rfl
  exact ⟨h.1, h.2.1 rfl⟩

/-- C8 counterexample: in a concrete run whose apply fails and whose
rollback also fails, the rollback-failure notification uses the same color
(RED) as the normal apply-failure notification — the severities are not
distinct. -/
theorem rollback_failure_color_not_distinct :
    (deploy (fun _ => true)
      ⟨"h", Except.ok "v1", none, 1, false⟩
      ⟨"r", "c", "switch", "/s", some "http://example", true⟩).notifications.map
        Notification.title =
      ["Deployment Starting", "Deployment Failed", "Rollback Failed"] ∧
    (deploy (fun _ => true)
      ⟨"h", Except.ok "v1", none, 1, false⟩
      ⟨"r", "c", "switch", "/s", some "http://example", true⟩).notifications.map
        Notification.color =
      [Color.YELLOW, Color.RED, Color.RED] ∧
    ((deploy (fun _ => true)
      ⟨"h", Except.ok "v1", none, 1, false⟩
      ⟨"r", "c", "switch", "/s", some "http://example", true⟩).notifications.map
        Notification.color)[2]? =
    ((deploy (fun _ => true)
      ⟨"h", Except.ok "v1", none, 1, false⟩
      ⟨"r", "c", "switch", "/s", some "http://example", true⟩).notifications.map
        Notification.color)[1]? := by
  decide

/-- C8 (amended): when the rollback tool itself fails, the run attempts
exactly the three notifications start, apply-failure, rollback-failure; the
rollback-failure one is marked critical / manual-intervention-required in
its title and message text, but its color is RED, the same color as the
normal apply-failure notification. -/
theorem rollback_failure_notification_content (sink : Notification → Bool)
    (env : DeployEnv) (config : DeployConfig) (s : String)
    (hres : env.resolveResult = Except.ok s)
    (hskip : shouldSkip env.stateFile (pyStrip s) = false)
    (happly : env.applyReturncode ≠ 0)
    (hrb : config.rollback_enabled = true)
    (hro : env.rollbackOk = false) :
    (deploy sink env config).notifications =
      [⟨"Deployment Starting",
        "Deploying " ++ pyStrip s ++ " to " ++ env.hostname ++ " via " ++ config.operation,
        Color.YELLOW⟩,
       ⟨"Deployment Failed",
        "Failed to deploy " ++ pyStrip s ++ " to " ++ env.hostname,
        Color.RED⟩,
       ⟨"Rollback Failed",
        "CRITICAL: Failed to rollback " ++ env.hostname ++ " - manual intervention required",
        Color.RED⟩] := by
  simp [deploy, hres, hskip, happly, hrb, hro, mkDeployResult]

/-- C8 witness: the amended statement at a concrete failed-rollback run. -/
theorem rollback_failure_notification_content_witness :
    (deploy (fun _ => true)
      ⟨"h", Except.ok "v1", none, 1, false⟩
      ⟨"r", "c", "switch", "/s", some "http://example", true⟩).notifications =
      [⟨"Deployment Starting", "Deploying v1 to h via switch", Color.YELLOW⟩,
       ⟨"Deployment Failed", "Failed to deploy v1 to h", Color.RED⟩,
       ⟨"Rollback Failed",
        "CRITICAL: Failed to rollback h - manual intervention required",
        Color.RED⟩] := by
  have h := rollback_failure_notification_content (fun _ => true)
    ⟨"h", Except.ok "v1", none, 1, false⟩
    ⟨"r", "c", "switch", "/s", some "http://example", true⟩
    "v1" rfl (by decide) (by decide) rfl rfl
  exact h

/-- C9 counterexample: with no webhook secret configured at all, the
receiver's startup still reaches the listening state instead of exiting —
the missing-secret diagnostic does not happen at startup, before request
handling begins. -/
theorem receiver_starts_without_secret :
    webhook_main ⟨none, none, none, none, none, "node", fun _ => none⟩ =
      StartupOutcome.listening "127.0.0.1" "9876" ∧
    webhook_main ⟨none, none, none, none, none, "node", fun _ => none⟩ ≠
      StartupOutcome.exited 1 := by
  decide

/-- C9 (amended): the orchestrator fails fast at startup — a missing target
reference makes `main` exit 1 with zero `deploy` runs; the receiver instead
starts listening regardless, and a missing webhook secret makes the
`get_secret` call inside the request handler exit, so the first request is
handled with no response and no trigger, after listening has begun. -/
theorem config_missing_fail_behavior
    (sink : Notification → Bool) (a : RunnerArgs) (e : RunnerEnv)
    (denv : DeployEnv) (re : ReceiverEnv)
    (harg : pyTruthy a.flake_ref = false)
    (henv : e.FLAKE_REF = none)
    (hfile : pyTruthy re.WEBHOOK_SECRET_FILE = false)
    (hsec : pyTruthy re.WEBHOOK_SECRET = false) :
    runner_main sink a e denv = (1, 0) ∧
    webhook_main re =
      StartupOutcome.listening (re.HOST.getD "127.0.0.1") (re.PORT.getD "9876") ∧
    get_secret re = SecretOutcome.exitConfigError ∧
    (∀ hmacHex parse triggerOk req,
      webhook_endpoint hmacHex parse re triggerOk req = none) := by
  have hgs : get_secret re = SecretOutcome.exitConfigError := by
    simp [get_secret, hfile, hsec]
  have hfr : (applyArgs a e).FLAKE_REF = none := by
    simp only [applyArgs, harg]
    split_ifs <;> simp_all
  refine ⟨?_, rfl, hgs, ?_⟩
  · simp [runner_main, DeployConfig.from_env, hfr]
  · intro hmacHex parse triggerOk req
    simp [webhook_endpoint, hgs]

/-- C9 witness: concrete missing-configuration scenarios for both
components. -/
theorem config_missing_fail_behavior_witness :
    runner_main (fun _ => true) ⟨none, none, none⟩
      ⟨none, none, none, none, none, none, "g", fun _ => none⟩
      ⟨"h", Except.ok "v", none, 0, true⟩ = (1, 0) ∧
    webhook_main ⟨none, none, none, none, none, "node", fun _ => none⟩ =
      StartupOutcome.listening "127.0.0.1" "9876" ∧
    get_secret ⟨none, none, none, none, none, "node", fun _ => none⟩ =
      SecretOutcome.exitConfigError ∧
    webhook_endpoint (fun _ _ => "aa") (fun _ => none)
      ⟨none, none, none, none, none, "node", fun _ => none⟩ true
      ⟨[], some "sha256=aa", some "workflow_job"⟩ = none := by
  have h := config_missing_fail_behavior (fun _ => true) ⟨none, none, none⟩
    ⟨none, none, none, none, none, none, "g", fun _ => none⟩
    ⟨"h", Except.ok "v", none, 0, true⟩
    ⟨none, none, none, none, none, "node", fun _ => none⟩
    rfl rfl rfl rfl
  exact ⟨h.1, h.2.1, h.2.2.1, h.2.2.2 _ _ _ _⟩
